import Mathlib

/-!
Shallow embedding of the react-native-gradient-mask engine.

Sources embedded:
* `src/src/AnimatedGradientMaskView.web.tsx` (web implementation:
  `colorToRgba`, `getGradientDirection`, `buildGradientString`,
  `adjustColorsForOpacity`, the `maskStyle` memo);
* `src/android/.../GradientMaskModule.kt`, which holds two variants of
  `GradientMaskView`: the ColorMatrix variant (base bitmap rebuilt only on
  colors/locations/direction/size change, opacity applied as a ColorMatrix
  filter at draw time) and the bitmap-rebuild variant (bitmap rebuilt on
  every prop change including `maskOpacity`, with the blended alpha baked in);
* `src/ios/...` / `src/unnamed/part_001` (iOS implementation: a
  `CAGradientLayer` plus an opaque black solid layer whose opacity is
  `1 - maskOpacity`, both installed as the view's layer mask).

Machine integers are modelled as `Nat` with explicit `% 2^32` where the
source truncates to 32 bits; JS/Kotlin floating point arithmetic is modelled
over `ℚ` (every concrete input used below is exactly representable, and the
affine blend arithmetic on such inputs is exact in both Float and Double).
-/

namespace GradientMask

/-- Alpha channel of a packed 32-bit ARGB value
(`(intValue >> 24) & 0xff` in the web source). -/
def decodeA (x : ℕ) : ℕ := x / 2 ^ 24 % 256

/-- Red channel of a packed 32-bit ARGB value (`(intValue >> 16) & 0xff`). -/
def decodeR (x : ℕ) : ℕ := x / 2 ^ 16 % 256

/-- Green channel of a packed 32-bit ARGB value (`(intValue >> 8) & 0xff`). -/
def decodeG (x : ℕ) : ℕ := x / 2 ^ 8 % 256

/-- Blue channel of a packed 32-bit ARGB value (`intValue & 0xff`). -/
def decodeB (x : ℕ) : ℕ := x % 256

/-- Repacking of channel components into a 32-bit ARGB value, as done by
`((a << 24) | (r << 16) | (g << 8) | b) >>> 0` in `adjustColorsForOpacity`
(the `>>> 0` truncates to an unsigned 32-bit value). -/
def encodeARGB (a r g b : ℕ) : ℕ := (a * 2 ^ 24 + r * 2 ^ 16 + g * 2 ^ 8 + b) % 2 ^ 32

/-- JavaScript `Math.round`: round half toward positive infinity. -/
def jsRound (q : ℚ) : ℤ := ⌊q + 1 / 2⌋

/-- Kotlin `Float.toInt()`: truncation toward zero. -/
def truncToInt (q : ℚ) : ℤ := if q < 0 then -⌊-q⌋ else ⌊q⌋

/-- Kotlin `coerceIn(0f, 1f)`. -/
def clampQ (q : ℚ) : ℚ := max 0 (min 1 q)

/-- An `rgba(r, g, b, a)` CSS color literal, as the tuple of its four
printed components (the string rendering is injective on this tuple). -/
structure Rgba where
  r : ℕ
  g : ℕ
  b : ℕ
  a : ℚ
deriving DecidableEq

/-- Web `colorToRgba`: `null`/`undefined` maps to `rgba(0, 0, 0, 0)`;
otherwise the channels are unpacked and alpha is divided by 255. -/
def colorToRgba (color : Option ℕ) : Rgba :=
  match color with
  | none => ⟨0, 0, 0, 0⟩
  | some c => ⟨decodeR c, decodeG c, decodeB c, (decodeA c : ℚ) / 255⟩

/-- Web `getGradientDirection`: maps the `direction` prop to a CSS
`linear-gradient` direction keyword, defaulting to `to bottom`. -/
def getGradientDirection (direction : String) : String :=
  if direction = "top" then "to bottom"
  else if direction = "bottom" then "to top"
  else if direction = "left" then "to right"
  else if direction = "right" then "to left"
  else "to bottom"

/-- The stop-position expression inside web `buildGradientString`:
`locations[index] !== undefined ? locations[index] * 100
: (index / (colors.length - 1)) * 100`. -/
def locationAt (locations : List ℚ) (n i : ℕ) : ℚ :=
  match locations[i]? with
  | some l => l * 100
  | none => ((i : ℚ) / ((n : ℚ) - 1)) * 100

/-- Web `buildGradientString`: the CSS direction keyword together with the
list of color stops, each an `rgba` literal with its percentage position. -/
def buildGradientString (colors : List (Option ℕ)) (locations : List ℚ)
    (direction : String) : String × List (Rgba × ℚ) :=
  (getGradientDirection direction,
    (List.range colors.length).map fun i =>
      (colorToRgba (colors.getD i none), locationAt locations colors.length i))

/-- Web `adjustColorsForOpacity`: returns the colors unchanged when
`maskOpacity >= 1`; replaces every entry by `0xff000000` when
`maskOpacity <= 0`; otherwise blends each non-null color's alpha toward 1 by
`adjustedAlpha = a + (1 - a) * (1 - maskOpacity)` and repacks, while `null`
entries are returned unchanged. -/
def adjustColorsForOpacity (colors : List (Option ℕ)) (maskOpacity : ℚ) :
    List (Option ℕ) :=
  if 1 ≤ maskOpacity then colors
  else if maskOpacity ≤ 0 then colors.map fun _ => some 0xff000000
  else colors.map fun color =>
    match color with
    | none => none
    | some c =>
      let a : ℚ := (decodeA c : ℚ) / 255
      let adjustedAlpha : ℚ := a + (1 - a) * (1 - maskOpacity)
      some (encodeARGB (jsRound (adjustedAlpha * 255)).toNat
        (decodeR c) (decodeG c) (decodeB c))

/-- The alpha channel of the web blend in isolation (the same three branches
as `adjustColorsForOpacity`, tracked on a single stop's alpha). -/
def webAdjustAlpha (baseAlpha : ℕ) (maskOpacity : ℚ) : ℤ :=
  if 1 ≤ maskOpacity then baseAlpha
  else if maskOpacity ≤ 0 then 255
  else
    jsRound ((((baseAlpha : ℚ) / 255) +
      (1 - (baseAlpha : ℚ) / 255) * (1 - maskOpacity)) * 255)

/-- The web `maskStyle` memo: no mask style at all when the current opacity
is `<= 0`, otherwise the gradient string built over the opacity-adjusted
colors. -/
def webMaskStyle (colors : List (Option ℕ)) (locations : List ℚ)
    (direction : String) (maskOpacity : ℚ) :
    Option (String × List (Rgba × ℚ)) :=
  if maskOpacity ≤ 0 then none
  else some (buildGradientString (adjustColorsForOpacity colors maskOpacity)
    locations direction)

/-- Modelled from the spec: the rasterization of a gradient stop list into
an alpha ramp is performed by the platform frameworks (Android
`LinearGradient` with `TileMode.CLAMP`, the CSS `linear-gradient` engine),
whose code is not under `src/`; §4.3 of the spec defines it as linear
interpolation between the two stops bracketing the normalized coordinate,
clamped to the first/last stop at the ends, with stops processed in authored
index order. `interpSegments` walks consecutive stop pairs. -/
def interpSegments : List (ℚ × ℚ) → ℚ → ℚ
  | [], _ => 255
  | [(a, _)], _ => a
  | (a1, l1) :: (a2, l2) :: rest, t =>
    if t ≤ l2 then a1 + (a2 - a1) * ((t - l1) / (l2 - l1))
    else interpSegments ((a2, l2) :: rest) t

/-- Modelled from the spec: alpha of the rasterized gradient at normalized
coordinate `t`, over `(alpha, location)` stops (see `interpSegments`).
Positions before the first stop clamp to the first stop's alpha; a single
stop yields a uniform field; an empty stop list never reaches the shader in
the source (guarded earlier), so it is mapped to the all-opaque value. -/
def interpAlpha (stops : List (ℚ × ℚ)) (t : ℚ) : ℚ :=
  match stops with
  | [] => 255
  | (a0, l0) :: _ => if t ≤ l0 then a0 else interpSegments stops t

/-- The contents of a mask bitmap as drawn by the Kotlin
`updateBaseMaskBitmap` / `updateMaskBitmap`: either the all-white fill
(`drawColor(Color.WHITE)`, every pixel alpha 255), or the linear-gradient
fill determined by the per-stop alphas, the stop locations and the gradient
axis returned by `getGradientCoordinates`. -/
structure BaseField where
  white : Bool
  alphas : List ℚ
  locs : List ℚ
  coords : List ℚ
deriving DecidableEq

/-- The all-white mask bitmap (`bitmapCanvas.drawColor(Color.WHITE)`). -/
def whiteField : BaseField := ⟨true, [], [], []⟩

/-- Alpha of the bitmap at normalized axis coordinate `t` (spec-modelled
sampling of the shader, see `interpAlpha`). -/
def BaseField.sample (f : BaseField) (t : ℚ) : ℚ :=
  if f.white then 255
  else interpAlpha (f.alphas.zip f.locs) t

/-- Kotlin `getGradientCoordinates` (identical in both view variants):
`[startX, startY, endX, endY]` of the `LinearGradient` axis, with the
unrecognized-direction default equal to the `"top"` case. -/
def getGradientCoordinates (direction : String) (width height : ℚ) : List ℚ :=
  if direction = "top" then [0, 0, 0, height]
  else if direction = "bottom" then [0, height, 0, 0]
  else if direction = "left" then [0, 0, width, 0]
  else if direction = "right" then [width, 0, 0, 0]
  else [0, 0, 0, height]

/-- Kotlin `(255 + (originalAlpha - 255) * maskOpacity).toInt()` from the
bitmap-rebuild variant's `updateMaskBitmap` (`Float.toInt()` truncates
toward zero). -/
def androidBlendedAlpha (originalAlpha : ℕ) (maskOpacity : ℚ) : ℤ :=
  truncToInt (255 + ((originalAlpha : ℚ) - 255) * maskOpacity)

/-- The alpha row of the ColorMatrix set in the ColorMatrix variant's
`dispatchDraw`: `[0, 0, 0, maskOpacity, 255 * (1 - maskOpacity)]`, i.e.
`resultAlpha = originalAlpha * maskOpacity + 255 * (1 - maskOpacity)`. -/
def androidColorMatrixAlpha (originalAlpha maskOpacity : ℚ) : ℚ :=
  originalAlpha * maskOpacity + 255 * (1 - maskOpacity)

/-- What a `dispatchDraw` pass does with the children: either they are drawn
directly (no `saveLayer`, no mask), or they are drawn into an offscreen
buffer and masked (`PorterDuff.Mode.DST_IN`) with the given bitmap, with an
optional ColorMatrix alpha filter `(scale, translate)`. -/
inductive DrawResult where
  | unmasked : DrawResult
  | masked : BaseField → Option (ℚ × ℚ) → DrawResult
deriving DecidableEq

/-- State of the ColorMatrix variant of the Android `GradientMaskView`
(first class in `GradientMaskModule.kt`): the props, the view size, the
cached base bitmap with its invalidation flag, and a ghost counter of
`updateBaseMaskBitmap` executions (the spec's "rebuild counter"). -/
structure OptView where
  colors : Option (List ℕ)
  locations : Option (List ℚ)
  direction : String
  maskOpacity : ℚ
  width : ℕ
  height : ℕ
  baseMaskBitmap : Option BaseField
  baseBitmapInvalidated : Bool
  rebuilds : ℕ
deriving DecidableEq

namespace OptView

/-- `setColors`: store the list and invalidate the base bitmap
(no value comparison in the source). -/
def setColors (s : OptView) (colorArray : Option (List ℕ)) : OptView :=
  { s with colors := colorArray, baseBitmapInvalidated := true }

/-- `setLocations`: store the list and invalidate the base bitmap. -/
def setLocations (s : OptView) (locationArray : Option (List ℚ)) : OptView :=
  { s with locations := locationArray, baseBitmapInvalidated := true }

/-- `setDirection`: store the string and invalidate the base bitmap. -/
def setDirection (s : OptView) (dir : String) : OptView :=
  { s with direction := dir, baseBitmapInvalidated := true }

/-- `setMaskOpacity` of the ColorMatrix variant: clamp to `[0,1]` and store
only when the value changed; the invalidation flag and the bitmap are not
touched. -/
def setMaskOpacity (s : OptView) (opacity : ℚ) : OptView :=
  let newOpacity := clampQ opacity
  if newOpacity ≠ s.maskOpacity then { s with maskOpacity := newOpacity } else s

/-- `updateBaseMaskBitmap`: no-op at zero size; the all-white bitmap when
colors or locations are absent, of mismatched lengths, or empty; otherwise
the gradient bitmap over `Color.argb(alpha_i, 255, 255, 255)` stops (the
original alphas) along the resolved axis. Every executed rebuild bumps the
ghost counter. -/
def updateBaseMaskBitmap (s : OptView) : OptView :=
  if s.width = 0 ∨ s.height = 0 then s
  else
    match s.colors, s.locations with
    | some cs, some ls =>
      if cs.length = ls.length ∧ cs ≠ [] then
        { s with
          baseMaskBitmap := some ⟨false, cs.map fun c => ((decodeA c : ℕ) : ℚ), ls,
            getGradientCoordinates s.direction s.width s.height⟩,
          rebuilds := s.rebuilds + 1 }
      else { s with baseMaskBitmap := some whiteField, rebuilds := s.rebuilds + 1 }
    | _, _ => { s with baseMaskBitmap := some whiteField, rebuilds := s.rebuilds + 1 }

/-- `onSizeChanged`: record the new size; for a positive size, rebuild the
base bitmap at once and clear the invalidation flag. -/
def onSizeChanged (s : OptView) (w h : ℕ) : OptView :=
  let s1 := { s with width := w, height := h }
  if 0 < w ∧ 0 < h then
    { s1.updateBaseMaskBitmap with baseBitmapInvalidated := false }
  else s1

/-- `onLayout`: after a frame change (`changed = true`) the base bitmap is
marked invalidated again. The Android framework runs `onLayout` after
`onSizeChanged` within the same layout pass, so a size change clears the
flag in `onSizeChanged` and immediately re-sets it here. -/
def onLayout (s : OptView) (changed : Bool) : OptView :=
  if changed then { s with baseBitmapInvalidated := true } else s

/-- The drawing decision of the ColorMatrix variant's `dispatchDraw` after
the bitmap refresh: pass-through when the bitmap is absent or
`maskOpacity <= 0`; otherwise mask with the cached bitmap, attaching the
ColorMatrix alpha filter `(maskOpacity, 255 * (1 - maskOpacity))` exactly
when `maskOpacity < 1`. -/
def drawChildren (s : OptView) : DrawResult :=
  match s.baseMaskBitmap with
  | none => .unmasked
  | some bmp =>
    if s.maskOpacity ≤ 0 then .unmasked
    else
      .masked bmp (if s.maskOpacity < 1 then
        some (s.maskOpacity, 255 * (1 - s.maskOpacity)) else none)

/-- `dispatchDraw` of the ColorMatrix variant: pass-through at zero size;
rebuild first when invalidated (clearing the flag); then draw per
`drawChildren`; the pair also returns the post-draw view state. -/
def dispatchDraw (s : OptView) : DrawResult × OptView :=
  if s.width = 0 ∨ s.height = 0 then (.unmasked, s)
  else
    let s1 := if s.baseBitmapInvalidated then
        { s.updateBaseMaskBitmap with baseBitmapInvalidated := false }
      else s
    (s1.drawChildren, s1)

end OptView

/-- State of the bitmap-rebuild variant of the Android `GradientMaskView`
(second class in `GradientMaskModule.kt`); same shape as `OptView`, but the
bitmap stores the opacity-blended alphas and `setMaskOpacity` invalidates
it. -/
structure NaiveView where
  colors : Option (List ℕ)
  locations : Option (List ℚ)
  direction : String
  maskOpacity : ℚ
  width : ℕ
  height : ℕ
  maskBitmap : Option BaseField
  maskBitmapInvalidated : Bool
  rebuilds : ℕ
deriving DecidableEq

namespace NaiveView

/-- `setMaskOpacity` of the bitmap-rebuild variant: clamp, store, and
unconditionally invalidate the mask bitmap. -/
def setMaskOpacity (s : NaiveView) (opacity : ℚ) : NaiveView :=
  { s with maskOpacity := clampQ opacity, maskBitmapInvalidated := true }

/-- `onLayout` of the bitmap-rebuild variant: identical to the ColorMatrix
variant's override — a frame change marks the bitmap invalidated. -/
def onLayout (s : NaiveView) (changed : Bool) : NaiveView :=
  if changed then { s with maskBitmapInvalidated := true } else s

/-- `updateMaskBitmap`: like `OptView.updateBaseMaskBitmap`, except the
gradient stops carry the blended alphas
`(255 + (originalAlpha - 255) * maskOpacity).toInt()`. -/
def updateMaskBitmap (s : NaiveView) : NaiveView :=
  if s.width = 0 ∨ s.height = 0 then s
  else
    match s.colors, s.locations with
    | some cs, some ls =>
      if cs.length = ls.length ∧ cs ≠ [] then
        { s with
          maskBitmap := some ⟨false,
            cs.map (fun c => (((androidBlendedAlpha (decodeA c) s.maskOpacity).toNat : ℕ) : ℚ)),
            ls, getGradientCoordinates s.direction s.width s.height⟩,
          rebuilds := s.rebuilds + 1 }
      else { s with maskBitmap := some whiteField, rebuilds := s.rebuilds + 1 }
    | _, _ => { s with maskBitmap := some whiteField, rebuilds := s.rebuilds + 1 }

/-- The drawing decision of the bitmap-rebuild variant's `dispatchDraw`
after the bitmap refresh: no ColorMatrix filter, the blend is already baked
into the bitmap. -/
def drawChildren (s : NaiveView) : DrawResult :=
  match s.maskBitmap with
  | none => .unmasked
  | some bmp => if s.maskOpacity ≤ 0 then .unmasked else .masked bmp none

/-- `dispatchDraw` of the bitmap-rebuild variant: pass-through at zero
size; rebuild first when invalidated (clearing the flag); then draw per
`drawChildren`. -/
def dispatchDraw (s : NaiveView) : DrawResult × NaiveView :=
  if s.width = 0 ∨ s.height = 0 then (.unmasked, s)
  else
    let s1 := if s.maskBitmapInvalidated then
        { s.updateMaskBitmap with maskBitmapInvalidated := false }
      else s
    (s1.drawChildren, s1)

end NaiveView

/-- iOS `updateGradientDirection` (`src/unnamed/part_001`): the
`CAGradientLayer` start/end points in the unit square, with the
unrecognized-direction default equal to the `"top"` case. -/
def iosGradientPoints (direction : String) : (ℚ × ℚ) × (ℚ × ℚ) :=
  if direction = "top" then ((1 / 2, 0), (1 / 2, 1))
  else if direction = "bottom" then ((1 / 2, 1), (1 / 2, 0))
  else if direction = "left" then ((0, 1 / 2), (1, 1 / 2))
  else if direction = "right" then ((1, 1 / 2), (0, 1 / 2))
  else ((1 / 2, 0), (1 / 2, 1))

/-- State of the iOS `GradientMaskView` relevant to masking: the stored
`maskOpacity`, the solid overlay layer's opacity, and whether `layer.mask`
has been installed by `updateGradientMask`. -/
structure IosView where
  maskOpacityProp : ℚ
  solidLayerOpacity : ℚ
  layerMaskInstalled : Bool
deriving DecidableEq

namespace IosView

/-- iOS `updateGradientMask`: installs the composite mask
(`layer.mask = compositeMask`); the gradient and solid sublayers stay. -/
def updateGradientMask (s : IosView) : IosView :=
  { s with layerMaskInstalled := true }

/-- iOS `updateMaskOpacity`: `solidMaskLayer.opacity = 1 - _maskOpacity`;
the mask itself is not removed. -/
def updateMaskOpacity (s : IosView) : IosView :=
  { s with solidLayerOpacity := 1 - s.maskOpacityProp }

/-- iOS `setMaskOpacity`: store the prop, then `updateMaskOpacity`. -/
def setMaskOpacity (s : IosView) (opacity : ℚ) : IosView :=
  updateMaskOpacity { s with maskOpacityProp := opacity }

end IosView

/-- Modelled from the spec: the source-over rule by which Core Animation
flattens the solid overlay sublayer onto the gradient sublayer when the
composite mask is rendered (framework behavior, not in `src/`):
`out = top + bottom * (1 - top / 255)` on a 0-255 alpha scale. -/
def sourceOverAlpha (top bottom : ℚ) : ℚ := top + bottom * (1 - top / 255)

/-- Effective alpha of the iOS solid overlay layer: opaque black
(`UIColor.black`, alpha 255) at layer opacity `1 - maskOpacity`
(`updateMaskOpacity`). -/
def iosSolidLayerAlpha (maskOpacity : ℚ) : ℚ := 255 * (1 - maskOpacity)

/-- Effective alpha of the iOS composite mask over a gradient pixel of
alpha `g`: the solid overlay source-over the gradient layer. -/
def iosCompositeAlpha (g maskOpacity : ℚ) : ℚ :=
  sourceOverAlpha (iosSolidLayerAlpha maskOpacity) g

/-- The blend contract exactly as the spec words it:
`round(baseAlpha * intensity + 255 * (1 - intensity))`, clamped to
`[0, 255]`. Kept for comparison against the implementations above. -/
def specBlend (baseAlpha : ℕ) (intensity : ℚ) : ℤ :=
  max 0 (min 255 (jsRound ((baseAlpha : ℚ) * intensity + 255 * (1 - intensity))))

end GradientMask

namespace GradientMask

lemma jsRound_natCast (n : ℕ) : jsRound (n : ℚ) = n := by
  unfold jsRound
  rw [show ((n : ℚ) + 1 / 2) = ((n : ℤ) : ℚ) + 1 / 2 by push_cast; ring,
    Int.floor_int_add]
  norm_num

lemma jsRound_nonneg (q : ℚ) (h : 0 ≤ q) : 0 ≤ jsRound q := by
  unfold jsRound
  exact Int.le_floor.mpr (by push_cast; linarith)

lemma jsRound_le_255 (q : ℚ) (h : q ≤ 255) : jsRound q ≤ 255 := by
  unfold jsRound
  have : ⌊q + 1 / 2⌋ < 256 := Int.floor_lt.mpr (by push_cast; linarith)
  omega

/-- C9: encoding the decoded channel components of a 32-bit value
reproduces the value: `encode(decode(x)) == x`. -/
theorem encode_decode_roundtrip (x : ℕ) (hx : x < 2 ^ 32) :
    encodeARGB (decodeA x) (decodeR x) (decodeG x) (decodeB x) = x := by
  unfold encodeARGB decodeA decodeR decodeG decodeB
  omega

/-- Witness for C9 at `x = 0x80FF01AB`. -/
theorem encode_decode_roundtrip_witness :
    encodeARGB (decodeA 0x80FF01AB) (decodeR 0x80FF01AB) (decodeG 0x80FF01AB)
      (decodeB 0x80FF01AB) = 0x80FF01AB :=
  encode_decode_roundtrip 0x80FF01AB (by decide)

/-- C10: the iOS composite mask (opaque black solid layer at opacity
`1 - m` source-over the gradient layer of alpha `g`) has effective alpha
`g + (255 - g) * (1 - m)`, which equals the Android ColorMatrix blend
`g * m + 255 * (1 - m)`. -/
theorem ios_android_blend_equivalent (g m : ℚ) :
    iosCompositeAlpha g m = g + (255 - g) * (1 - m) ∧
    iosCompositeAlpha g m = androidColorMatrixAlpha g m := by
  unfold iosCompositeAlpha sourceOverAlpha iosSolidLayerAlpha androidColorMatrixAlpha
  constructor <;> ring

/-- C5 counterexample: the Android direction resolver maps `top` over a
10×20 surface to `(0,0,0,20)`, not to the claimed `(5,0,5,20)`. -/
theorem resolve_top_counterexample :
    getGradientCoordinates "top" 10 20 ≠ [5, 0, 5, 20] := by
  norm_num [getGradientCoordinates]

/-- C5 amended: the Android resolver pins the cross-axis coordinate to the
edge (`top` is `(0,0)`→`(0,h)` etc.), not to the surface midline, while the
iOS resolver uses unit-square points whose scaling by `(w,h)` yields exactly
the claimed centered coordinates (`resolve('top',10,20) = (5,0,5,20)`,
`resolve('left',10,20) = (0,10,10,10)`); both default unrecognized
directions to the `top` mapping. -/
theorem resolve_amended (w h : ℚ) (d : String) (hd1 : d ≠ "top")
    (hd2 : d ≠ "bottom") (hd3 : d ≠ "left") (hd4 : d ≠ "right") :
    getGradientCoordinates "top" w h = [0, 0, 0, h] ∧
    getGradientCoordinates "bottom" w h = [0, h, 0, 0] ∧
    getGradientCoordinates "left" w h = [0, 0, w, 0] ∧
    getGradientCoordinates "right" w h = [w, 0, 0, 0] ∧
    getGradientCoordinates d w h = [0, 0, 0, h] ∧
    iosGradientPoints "top" = ((1 / 2, 0), (1 / 2, 1)) ∧
    iosGradientPoints "bottom" = ((1 / 2, 1), (1 / 2, 0)) ∧
    iosGradientPoints "left" = ((0, 1 / 2), (1, 1 / 2)) ∧
    iosGradientPoints "right" = ((1, 1 / 2), (0, 1 / 2)) ∧
    iosGradientPoints d = ((1 / 2, 0), (1 / 2, 1)) ∧
    (10 * (iosGradientPoints "top").1.1, 20 * (iosGradientPoints "top").1.2,
      10 * (iosGradientPoints "top").2.1, 20 * (iosGradientPoints "top").2.2) =
      ((5 : ℚ), (0 : ℚ), (5 : ℚ), (20 : ℚ)) ∧
    (10 * (iosGradientPoints "left").1.1, 20 * (iosGradientPoints "left").1.2,
      10 * (iosGradientPoints "left").2.1, 20 * (iosGradientPoints "left").2.2) =
      ((0 : ℚ), (10 : ℚ), (10 : ℚ), (10 : ℚ)) := by
  refine ⟨rfl, rfl, rfl, rfl, ?_, rfl, rfl, rfl, rfl, ?_,
    by rw [show iosGradientPoints "top" = ((1 / 2, 0), (1 / 2, 1)) from rfl]; norm_num,
    by rw [show iosGradientPoints "left" = ((0, 1 / 2), (1, 1 / 2)) from rfl]; norm_num⟩
  · unfold getGradientCoordinates
    rw [if_neg hd1, if_neg hd2, if_neg hd3, if_neg hd4]
  · unfold iosGradientPoints
    rw [if_neg hd1, if_neg hd2, if_neg hd3, if_neg hd4]

/-- Witness for C5 amended at an unrecognized direction. -/
theorem resolve_amended_witness :
    getGradientCoordinates "diagonal" 10 20 = [0, 0, 0, 20] :=
  (resolve_amended 10 20 "diagonal" (by decide) (by decide) (by decide)
    (by decide)).2.2.2.2.1

/-- C1 counterexample: the bitmap-rebuild variant blends with `Float.toInt`
truncation, so at `baseAlpha = 0`, `intensity = 1/2` it produces 127 while
`round(0 * 1/2 + 255 * (1 - 1/2)) = round(127.5) = 128`. -/
theorem blend_round_counterexample :
    androidBlendedAlpha 0 (1 / 2) ≠ specBlend 0 (1 / 2) := by
  norm_num [androidBlendedAlpha, truncToInt, specBlend, jsRound]

/-- C1 amended: for `baseAlpha ∈ [0,255]` and `intensity ∈ [0,1]`, the web
blend equals `round(baseAlpha * intensity + 255 * (1 - intensity))` clamped
to `[0,255]` (the clamp never binds), while the Android bitmap-rebuild blend
equals the same affine value truncated toward zero instead of rounded; both
give exactly `baseAlpha` at intensity 1 and exactly 255 at intensity 0. -/
theorem blend_amended (a : ℕ) (ha : a ≤ 255) (m : ℚ) (h0 : 0 ≤ m) (h1 : m ≤ 1) :
    webAdjustAlpha a m = specBlend a m ∧
    androidBlendedAlpha a m = truncToInt ((a : ℚ) * m + 255 * (1 - m)) ∧
    webAdjustAlpha a 1 = a ∧ androidBlendedAlpha a 1 = a ∧
    webAdjustAlpha a 0 = 255 ∧ androidBlendedAlpha a 0 = 255 := by
  have hweb1 : webAdjustAlpha a 1 = a := by simp [webAdjustAlpha]
  have hand1 : androidBlendedAlpha a 1 = a := by
    unfold androidBlendedAlpha truncToInt
    rw [show (255 + ((a : ℚ) - 255) * 1) = ((a : ℤ) : ℚ) by push_cast; ring]
    rw [if_neg (not_lt.mpr (by push_cast; positivity)), Int.floor_intCast]
  have hweb0 : webAdjustAlpha a 0 = 255 := by norm_num [webAdjustAlpha]
  have hand0 : androidBlendedAlpha a 0 = 255 := by
    norm_num [androidBlendedAlpha, truncToInt]
  refine ⟨?_, ?_, hweb1, hand1, hweb0, hand0⟩
  · by_cases hm1 : 1 ≤ m
    · have hm : m = 1 := le_antisymm h1 hm1
      subst hm
      rw [hweb1]
      unfold specBlend
      rw [show ((a : ℚ) * 1 + 255 * (1 - 1)) = ((a : ℕ) : ℚ) by ring,
        jsRound_natCast]
      omega
    · by_cases hm0 : m ≤ 0
      · have hm : m = 0 := le_antisymm hm0 h0
        subst hm
        rw [hweb0]
        unfold specBlend
        rw [show ((a : ℚ) * 0 + 255 * (1 - 0)) = ((255 : ℕ) : ℚ) by push_cast; ring,
          jsRound_natCast]
        omega
      · push_neg at hm0
        have hval : (((a : ℚ) / 255) + (1 - (a : ℚ) / 255) * (1 - m)) * 255 =
            (a : ℚ) * m + 255 * (1 - m) := by ring
        have hle : (a : ℚ) * m + 255 * (1 - m) ≤ 255 := by
          have : (a : ℚ) * m ≤ 255 * m := by
            apply mul_le_mul_of_nonneg_right _ h0
            exact_mod_cast ha
          linarith
        have hge : 0 ≤ (a : ℚ) * m + 255 * (1 - m) := by
          have h1' : 0 ≤ (a : ℚ) * m := by positivity
          nlinarith
        unfold webAdjustAlpha specBlend
        rw [if_neg hm1, if_neg (by linarith), hval]
        have hr0 := jsRound_nonneg _ hge
        have hr255 := jsRound_le_255 _ hle
        omega
  · unfold androidBlendedAlpha
    congr 1
    ring

/-- Witness for C1 amended at `baseAlpha = 64`, `intensity = 1/2`. -/
theorem blend_amended_witness :
    webAdjustAlpha 64 (1 / 2) = specBlend 64 (1 / 2) :=
  (blend_amended 64 (by norm_num) (1 / 2) (by norm_num) (by norm_num)).1

/-- C7 counterexample: at intensity `1/2` the web blend leaves a `null`
entry fully transparent (`rgba(0,0,0,0)`), while an explicit `0x00000000`
entry is blended toward opaque (`rgba(0,0,0,128/255)`), so downstream
results differ. -/
theorem null_color_counterexample :
    colorToRgba ((adjustColorsForOpacity [none] (1 / 2)).getD 0 none) ≠
      colorToRgba ((adjustColorsForOpacity [some 0] (1 / 2)).getD 0 none) := by
  have e1 : adjustColorsForOpacity [none] (1 / 2) = [none] := by
    unfold adjustColorsForOpacity
    rw [if_neg (by norm_num), if_neg (by norm_num)]
    rfl
  have hj : jsRound ((((decodeA 0 : ℚ) / 255) +
      (1 - (decodeA 0 : ℚ) / 255) * (1 - 1 / 2)) * 255) = 128 := by
    norm_num [decodeA, jsRound]
  have e2 : adjustColorsForOpacity [some 0] (1 / 2) = [some 0x80000000] := by
    unfold adjustColorsForOpacity
    rw [if_neg (by norm_num), if_neg (by norm_num)]
    simp only [List.map, hj]
    norm_num [decodeR, decodeG, decodeB, encodeARGB]
    decide
  rw [e1, e2]
  simp only [List.getD, List.getElem?_cons_zero, Option.getD_some]
  norm_num [colorToRgba, decodeA, decodeR, decodeG, decodeB, Rgba.mk.injEq]

/-- C7 amended: decoding `null` yields `(0,0,0,0)` just like the explicit
value `0x00000000`, and the downstream blend treats them alike at the
intensity endpoints (`m ≥ 1` and `m ≤ 0`); but for every intermediate
intensity `0 < m < 1` the web blend passes `null` entries through
un-blended (they stay fully transparent) instead of blending them like an
explicit `0x00000000`. -/
theorem null_color_amended (m : ℚ) :
    colorToRgba none = colorToRgba (some 0) ∧
    (1 ≤ m →
      colorToRgba ((adjustColorsForOpacity [none] m).getD 0 none) =
        colorToRgba ((adjustColorsForOpacity [some 0] m).getD 0 none)) ∧
    (m ≤ 0 → adjustColorsForOpacity [none] m = adjustColorsForOpacity [some 0] m) ∧
    (0 < m → m < 1 → adjustColorsForOpacity [none] m = [none]) := by
  have hdec : colorToRgba none = colorToRgba (some 0) := by
    norm_num [colorToRgba, decodeA, decodeR, decodeG, decodeB]
  refine ⟨hdec, ?_, ?_, ?_⟩
  · intro h1
    simp only [adjustColorsForOpacity, if_pos h1]
    exact hdec
  · intro h0
    by_cases h1 : 1 ≤ m
    · linarith
    · simp only [adjustColorsForOpacity, if_neg h1, if_pos h0, List.map]
  · intro hlt hgt
    simp only [adjustColorsForOpacity, if_neg (by linarith : ¬(1 ≤ m)),
      if_neg (by linarith : ¬(m ≤ 0)), List.map]

/-- Witness for C7 amended at `m = 1`. -/
theorem null_color_amended_witness :
    colorToRgba ((adjustColorsForOpacity [none] 1).getD 0 none) =
      colorToRgba ((adjustColorsForOpacity [some 0] 1).getD 0 none) :=
  (null_color_amended 1).2.1 (by norm_num)

end GradientMask

namespace GradientMask

lemma updateBaseMaskBitmap_preserves (s : OptView) :
    (s.updateBaseMaskBitmap).maskOpacity = s.maskOpacity ∧
    (s.updateBaseMaskBitmap).width = s.width ∧
    (s.updateBaseMaskBitmap).height = s.height ∧
    (s.updateBaseMaskBitmap).baseBitmapInvalidated = s.baseBitmapInvalidated ∧
    (s.updateBaseMaskBitmap).colors = s.colors ∧
    (s.updateBaseMaskBitmap).locations = s.locations ∧
    (s.updateBaseMaskBitmap).direction = s.direction := by
  unfold OptView.updateBaseMaskBitmap
  repeat' split
  all_goals exact ⟨rfl, rfl, rfl, rfl, rfl, rfl, rfl⟩

lemma updateBaseMaskBitmap_rebuilds (s : OptView)
    (h : ¬(s.width = 0 ∨ s.height = 0)) :
    (s.updateBaseMaskBitmap).rebuilds = s.rebuilds + 1 := by
  unfold OptView.updateBaseMaskBitmap
  rw [if_neg h]
  repeat' split
  all_goals rfl

lemma dispatchDraw_state (s : OptView) (h : ¬(s.width = 0 ∨ s.height = 0)) :
    (s.dispatchDraw).2 = (if s.baseBitmapInvalidated then
      { s.updateBaseMaskBitmap with baseBitmapInvalidated := false } else s) := by
  unfold OptView.dispatchDraw
  rw [if_neg h]

lemma dispatchDraw_result (s : OptView) (h : ¬(s.width = 0 ∨ s.height = 0)) :
    (s.dispatchDraw).1 = ((if s.baseBitmapInvalidated then
      { s.updateBaseMaskBitmap with baseBitmapInvalidated := false }
      else s)).drawChildren := by
  unfold OptView.dispatchDraw
  rw [if_neg h]

lemma drawChildren_unmasked (s : OptView) (hm : s.maskOpacity ≤ 0) :
    s.drawChildren = DrawResult.unmasked := by
  unfold OptView.drawChildren
  cases hbm : s.baseMaskBitmap with
  | none => rfl
  | some bmp => simp only [if_pos hm]

/-- C3 counterexample: on iOS, setting the intensity to 0 leaves the
composite mask installed on the layer (the solid overlay merely goes fully
opaque), so masking is not skipped entirely. -/
theorem intensity_zero_counterexample :
    ((IosView.updateGradientMask ⟨1, 0, false⟩).setMaskOpacity 0).layerMaskInstalled
      = true := rfl

/-- C3 amended: the web implementation returns no mask style and the
Android implementation draws the children unmasked whenever the intensity is
`<= 0`; the iOS implementation instead keeps the composite mask installed
and raises the solid overlay's opacity to 1, making the effective mask alpha
255 everywhere, so the content still renders as-is. -/
theorem intensity_zero_amended :
    (∀ (cs : List (Option ℕ)) (ls : List ℚ) (d : String) (m : ℚ), m ≤ 0 →
      webMaskStyle cs ls d m = none) ∧
    (∀ s : OptView, s.maskOpacity ≤ 0 → (s.dispatchDraw).1 = DrawResult.unmasked) ∧
    (∀ s : IosView, (s.setMaskOpacity 0).layerMaskInstalled = s.layerMaskInstalled ∧
      (s.setMaskOpacity 0).solidLayerOpacity = 1 ∧
      (∀ g, iosCompositeAlpha g 0 = 255)) := by
  refine ⟨?_, ?_, ?_⟩
  · intro cs ls d m hm
    unfold webMaskStyle
    rw [if_pos hm]
  · intro s hm
    by_cases h : s.width = 0 ∨ s.height = 0
    · unfold OptView.dispatchDraw
      rw [if_pos h]
    · rw [dispatchDraw_result s h]
      by_cases hinv : s.baseBitmapInvalidated
      · rw [if_pos hinv]
        apply drawChildren_unmasked
        show (s.updateBaseMaskBitmap).maskOpacity ≤ 0
        rw [(updateBaseMaskBitmap_preserves s).1]
        exact hm
      · rw [if_neg hinv]
        exact drawChildren_unmasked s hm
  · intro s
    refine ⟨rfl, ?_, ?_⟩
    · unfold IosView.setMaskOpacity IosView.updateMaskOpacity
      norm_num
    · intro g
      unfold iosCompositeAlpha sourceOverAlpha iosSolidLayerAlpha
      ring

/-- Witness for C3 amended: the web mask style vanishes at intensity 0. -/
theorem intensity_zero_amended_witness :
    webMaskStyle [some 0xFF000000] [0] "top" 0 = none :=
  intensity_zero_amended.1 [some 0xFF000000] [0] "top" 0 (by norm_num)

end GradientMask

namespace GradientMask

lemma setMaskOpacity_preserves (s : OptView) (o : ℚ) :
    (s.setMaskOpacity o).baseBitmapInvalidated = s.baseBitmapInvalidated ∧
    (s.setMaskOpacity o).baseMaskBitmap = s.baseMaskBitmap ∧
    (s.setMaskOpacity o).rebuilds = s.rebuilds := by
  unfold OptView.setMaskOpacity
  dsimp only
  split
  · exact ⟨rfl, rfl, rfl⟩
  · exact ⟨rfl, rfl, rfl⟩

lemma foldl_setMaskOpacity_preserves (os : List ℚ) (s : OptView) :
    (os.foldl OptView.setMaskOpacity s).baseBitmapInvalidated =
      s.baseBitmapInvalidated ∧
    (os.foldl OptView.setMaskOpacity s).baseMaskBitmap = s.baseMaskBitmap ∧
    (os.foldl OptView.setMaskOpacity s).rebuilds = s.rebuilds := by
  induction os generalizing s with
  | nil => exact ⟨rfl, rfl, rfl⟩
  | cons o os ih =>
    have h1 := setMaskOpacity_preserves s o
    have h2 := ih (s.setMaskOpacity o)
    simp only [List.foldl_cons]
    exact ⟨h2.1.trans h1.1, h2.2.1.trans h1.2.1, h2.2.2.trans h1.2.2⟩

/-- C2 counterexample: in the bitmap-rebuild variant of the Android view, an
intensity-only update flips the invalidation flag, and the next draw rebuilds
the mask bitmap (the rebuild counter advances from 1 to 2). -/
theorem intensity_update_rebuild_counterexample :
    ((NaiveView.setMaskOpacity
        ⟨some [0x80000000], some [0], "top", 1, 1, 1, some whiteField, false, 1⟩
        (1 / 2)).maskBitmapInvalidated = true) ∧
    (((NaiveView.setMaskOpacity
        ⟨some [0x80000000], some [0], "top", 1, 1, 1, some whiteField, false, 1⟩
        (1 / 2)).dispatchDraw).2.rebuilds = 2) := by
  constructor
  · rfl
  · rfl

/-- C2 amended: in the ColorMatrix variant, any sequence of intensity
updates leaves the invalidation flag, the cached base bitmap and the rebuild
counter unchanged, and a draw from a clean state applies the intensity as a
ColorMatrix affine filter `(m, 255*(1-m))` over the cached bitmap without
rebuilding; in the bitmap-rebuild variant, `setMaskOpacity` invalidates the
bitmap and the next draw rebuilds it from the stops. -/
theorem intensity_update_amended :
    (∀ (s : OptView) (os : List ℚ),
      (os.foldl OptView.setMaskOpacity s).baseBitmapInvalidated =
        s.baseBitmapInvalidated ∧
      (os.foldl OptView.setMaskOpacity s).baseMaskBitmap = s.baseMaskBitmap ∧
      (os.foldl OptView.setMaskOpacity s).rebuilds = s.rebuilds) ∧
    (∀ s : OptView, s.baseBitmapInvalidated = false →
      ¬(s.width = 0 ∨ s.height = 0) →
      ((s.dispatchDraw).2 = s ∧
       (∀ bf, s.baseMaskBitmap = some bf → 0 < s.maskOpacity → s.maskOpacity < 1 →
         (s.dispatchDraw).1 =
           DrawResult.masked bf (some (s.maskOpacity, 255 * (1 - s.maskOpacity)))))) ∧
    (∀ (s : NaiveView) (o : ℚ),
      (s.setMaskOpacity o).maskBitmapInvalidated = true) := by
  refine ⟨fun s os => foldl_setMaskOpacity_preserves os s, ?_, fun s o => rfl⟩
  intro s hclean h
  constructor
  · rw [dispatchDraw_state s h, if_neg (by rw [hclean]; exact Bool.false_ne_true)]
  · intro bf hbf hpos hlt
    rw [dispatchDraw_result s h, if_neg (by rw [hclean]; exact Bool.false_ne_true)]
    unfold OptView.drawChildren
    rw [hbf]
    simp only [if_neg (not_le.mpr hpos), if_pos hlt]

/-- Witness for C2 amended: a concrete clean state draws with the cached
bitmap and the affine filter, and its rebuild counter stays at 1. -/
theorem intensity_update_amended_witness :
    ((OptView.dispatchDraw
      ⟨some [0x80000000], some [0], "top", 1 / 2, 1, 1, some whiteField, false, 1⟩).2 =
      ⟨some [0x80000000], some [0], "top", 1 / 2, 1, 1, some whiteField, false, 1⟩) ∧
    ((OptView.dispatchDraw
      ⟨some [0x80000000], some [0], "top", 1 / 2, 1, 1, some whiteField, false, 1⟩).1 =
      DrawResult.masked whiteField (some (1 / 2, 255 * (1 - 1 / 2)))) := by
  have h := intensity_update_amended.2.1
    ⟨some [0x80000000], some [0], "top", 1 / 2, 1, 1, some whiteField, false, 1⟩
    rfl (by decide)
  exact ⟨h.1, h.2 whiteField rfl (by norm_num) (by norm_num)⟩

end GradientMask

namespace GradientMask

/-- C4 counterexample: starting from a clean, already-built state, calling
`setColors` with a structurally identical colors list still marks the bitmap
invalidated, and the next draw rebuilds it (the rebuild counter advances
from 1 to 2) although the cache key is unchanged by value. -/
theorem cache_value_equality_counterexample :
    ((OptView.setColors
        ⟨some [0x80000000], some [0], "top", 1, 1, 1,
          some ⟨false, [128], [0], [0, 0, 0, 1]⟩, false, 1⟩
        (some [0x80000000])).colors = some [0x80000000]) ∧
    (((OptView.setColors
        ⟨some [0x80000000], some [0], "top", 1, 1, 1,
          some ⟨false, [128], [0], [0, 0, 0, 1]⟩, false, 1⟩
        (some [0x80000000])).dispatchDraw).2.rebuilds = 2) := by
  constructor
  · rfl
  · rfl

/-- C4 amended: a draw rebuilds the base bitmap iff the invalidation flag is
set, not iff the cache key changed by value: every `setColors`,
`setLocations` or `setDirection` call sets the flag with no value
comparison, the draw clears it, and `onLayout` with `changed = true` sets it
again. Two consecutive draws with no intervening setter or layout perform at
most one rebuild (none from a clean state); one setter call leads to exactly
one rebuild at the next draw; and a size change — `onSizeChanged` followed
by `onLayout(changed = true)`, the Android layout order — rebuilds eagerly
once but leaves the flag re-set, so the next draw rebuilds a second time:
two rebuilds per size change in total. -/
theorem cache_rebuild_amended :
    (∀ s : OptView, ¬(s.width = 0 ∨ s.height = 0) →
      ((s.dispatchDraw).2.dispatchDraw).2.rebuilds ≤ s.rebuilds + 1 ∧
      (s.dispatchDraw).2.rebuilds ≤ s.rebuilds + 1 ∧
      (s.dispatchDraw).2.baseBitmapInvalidated = false ∧
      (s.baseBitmapInvalidated = false → (s.dispatchDraw).2.rebuilds = s.rebuilds)) ∧
    (∀ (s : OptView) (cs : Option (List ℕ)), ¬(s.width = 0 ∨ s.height = 0) →
      ((s.setColors cs).dispatchDraw).2.rebuilds = s.rebuilds + 1) ∧
    (∀ (s : OptView) (ls : Option (List ℚ)), ¬(s.width = 0 ∨ s.height = 0) →
      ((s.setLocations ls).dispatchDraw).2.rebuilds = s.rebuilds + 1) ∧
    (∀ (s : OptView) (d : String), ¬(s.width = 0 ∨ s.height = 0) →
      ((s.setDirection d).dispatchDraw).2.rebuilds = s.rebuilds + 1) ∧
    (∀ (s : OptView) (w h : ℕ), 0 < w ∧ 0 < h →
      ((s.onSizeChanged w h).onLayout true).rebuilds = s.rebuilds + 1 ∧
      ((s.onSizeChanged w h).onLayout true).baseBitmapInvalidated = true ∧
      ((((s.onSizeChanged w h).onLayout true).dispatchDraw).2).rebuilds =
        s.rebuilds + 2) := by
  have hdirty : ∀ s : OptView, s.baseBitmapInvalidated = true →
      ¬(s.width = 0 ∨ s.height = 0) →
      (s.dispatchDraw).2.rebuilds = s.rebuilds + 1 ∧
      (s.dispatchDraw).2.baseBitmapInvalidated = false := by
    intro s hd h
    rw [dispatchDraw_state s h, if_pos hd]
    exact ⟨updateBaseMaskBitmap_rebuilds s h, rfl⟩
  have hclean : ∀ s : OptView, s.baseBitmapInvalidated = false →
      ¬(s.width = 0 ∨ s.height = 0) →
      (s.dispatchDraw).2 = s := by
    intro s hc h
    rw [dispatchDraw_state s h, if_neg (by rw [hc]; exact Bool.false_ne_true)]
  have hdraw : ∀ s : OptView, ¬(s.width = 0 ∨ s.height = 0) →
      (s.dispatchDraw).2.rebuilds ≤ s.rebuilds + 1 ∧
      (s.dispatchDraw).2.baseBitmapInvalidated = false ∧
      (s.dispatchDraw).2.width = s.width ∧
      (s.dispatchDraw).2.height = s.height := by
    intro s h
    rw [dispatchDraw_state s h]
    by_cases hd : s.baseBitmapInvalidated
    · rw [if_pos hd]
      refine ⟨le_of_eq (updateBaseMaskBitmap_rebuilds s h), rfl, ?_, ?_⟩
      · exact (updateBaseMaskBitmap_preserves s).2.1
      · exact (updateBaseMaskBitmap_preserves s).2.2.1
    · rw [if_neg hd]
      exact ⟨Nat.le_succ _, Bool.not_eq_true _ |>.mp hd, rfl, rfl⟩
  have hsetterdraw : ∀ s : OptView, s.baseBitmapInvalidated = true →
      ¬(s.width = 0 ∨ s.height = 0) →
      (s.dispatchDraw).2.rebuilds = s.rebuilds + 1 := by
    intro s hd h
    exact (hdirty s hd h).1
  refine ⟨?_, ?_, ?_, ?_, ?_⟩
  · intro s h
    obtain ⟨hle, hflag, hw, hh⟩ := hdraw s h
    have h2 : ¬((s.dispatchDraw).2.width = 0 ∨ (s.dispatchDraw).2.height = 0) := by
      rw [hw, hh]; exact h
    have := hclean (s.dispatchDraw).2 hflag h2
    rw [this]
    refine ⟨hle, hle, hflag, ?_⟩
    intro hc
    rw [hclean s hc h]
  · intro s cs h
    exact hsetterdraw { s with colors := cs, baseBitmapInvalidated := true } rfl h
  · intro s ls h
    exact hsetterdraw { s with locations := ls, baseBitmapInvalidated := true } rfl h
  · intro s d h
    exact hsetterdraw { s with direction := d, baseBitmapInvalidated := true } rfl h
  · intro s w h hwh
    have hne : ¬(({ s with width := w, height := h } : OptView).width = 0 ∨
        ({ s with width := w, height := h } : OptView).height = 0) := by
      dsimp only
      omega
    have hsz : s.onSizeChanged w h =
        { ({ s with width := w, height := h } : OptView).updateBaseMaskBitmap with
          baseBitmapInvalidated := false } := by
      unfold OptView.onSizeChanged
      dsimp only
      rw [if_pos hwh]
    have hreb : (({ s with width := w, height := h } :
        OptView).updateBaseMaskBitmap).rebuilds = s.rebuilds + 1 :=
      updateBaseMaskBitmap_rebuilds _ hne
    have hwidth : (({ s with width := w, height := h } :
        OptView).updateBaseMaskBitmap).width = w :=
      (updateBaseMaskBitmap_preserves _).2.1
    have hheight : (({ s with width := w, height := h } :
        OptView).updateBaseMaskBitmap).height = h :=
      (updateBaseMaskBitmap_preserves _).2.2.1
    have hlay : ∀ x : OptView, x.onLayout true =
        { x with baseBitmapInvalidated := true } := fun x => by
      unfold OptView.onLayout
      rw [if_pos rfl]
    rw [hsz, hlay]
    refine ⟨hreb, rfl, ?_⟩
    have h2ne : ¬(({ ({ s with width := w, height := h } :
          OptView).updateBaseMaskBitmap with baseBitmapInvalidated := true } :
          OptView).width = 0 ∨
        ({ ({ s with width := w, height := h } :
          OptView).updateBaseMaskBitmap with baseBitmapInvalidated := true } :
          OptView).height = 0) := by
      dsimp only
      rw [hwidth, hheight]
      omega
    rw [dispatchDraw_state _ h2ne, if_pos rfl]
    dsimp only
    rw [updateBaseMaskBitmap_rebuilds _ h2ne]
    dsimp only
    rw [hreb]

/-- Witness for C4 amended: a `setDirection` call on a concrete clean state
is followed by exactly one rebuild at the next draw. -/
theorem cache_rebuild_amended_witness :
    ((OptView.setDirection
        ⟨some [0x80000000], some [0], "top", 1, 1, 1, some whiteField, false, 1⟩
        "left").dispatchDraw).2.rebuilds = 2 :=
  cache_rebuild_amended.2.2.2.1
    ⟨some [0x80000000], some [0], "top", 1, 1, 1, some whiteField, false, 1⟩
    "left" (by decide)

end GradientMask

namespace GradientMask

/-- C6 counterexample: a single stop `0x80000000` with a two-element
locations list fails the Android length guard, so the builder paints the
all-white mask — alpha 255 everywhere, not the stop's alpha 128. -/
theorem single_stop_counterexample :
    ((OptView.updateBaseMaskBitmap
        ⟨some [0x80000000], some [0, 1], "top", 1, 1, 1, none, true, 0⟩).baseMaskBitmap).map
        (fun f => f.sample 0) = some 255 ∧ (255 : ℚ) ≠ 128 := by
  constructor
  · rfl
  · norm_num

/-- C6 amended: with a single stop and a matching single-element locations
list, the built base field is uniform — its sampled alpha at every
coordinate equals the stop's alpha (128 for `0x80000000`); with absent or
length-mismatched locations the Android builder instead paints the
all-opaque white mask. The build is total. -/
theorem single_stop_amended (s : OptView) (c : ℕ) (l t : ℚ)
    (hc : s.colors = some [c]) (hl : s.locations = some [l])
    (hw : 0 < s.width) (hh : 0 < s.height) :
    ((s.updateBaseMaskBitmap).baseMaskBitmap).map (fun f => f.sample t) =
      some ((decodeA c : ℚ)) ∧ decodeA 0x80000000 = 128 := by
  constructor
  · unfold OptView.updateBaseMaskBitmap
    rw [if_neg (by omega)]
    simp only [hc, hl]
    rw [if_pos (by simp)]
    simp only [Option.map_some', Option.some.injEq]
    unfold BaseField.sample
    simp only [Bool.false_eq_true, if_false]
    unfold interpAlpha
    simp only [List.map_cons, List.map_nil, List.zip_cons_cons, List.zip_nil_right]
    split
    · rfl
    · rfl
  · decide

/-- Witness for C6 amended at the spec's example stop `0x80000000`. -/
theorem single_stop_amended_witness :
    ((OptView.updateBaseMaskBitmap
        ⟨some [0x80000000], some [1 / 2], "top", 1, 2, 2, none, true, 0⟩).baseMaskBitmap).map
        (fun f => f.sample (1 / 4)) = some ((decodeA 0x80000000 : ℚ)) :=
  (single_stop_amended
    ⟨some [0x80000000], some [1 / 2], "top", 1, 2, 2, none, true, 0⟩
    0x80000000 (1 / 2) (1 / 4) rfl rfl (by decide) (by decide)).1

end GradientMask

namespace GradientMask

/-- C8 counterexample: on Android, two stops with a one-element locations
list (locations provided but incomplete) do not fall back to even spacing:
the builder paints the all-white mask, whose alpha at position 0 is 255,
while the claimed even-spacing gradient over `[0x00000000, 0xFF000000]`
(locations `0/(2-1)` and `1/(2-1)`) has alpha 0 there. -/
theorem locations_fallback_counterexample :
    ((OptView.updateBaseMaskBitmap
        ⟨some [0x00000000, 0xFF000000], some [0], "top", 1, 1, 1, none, true, 0⟩).baseMaskBitmap).map
        (fun f => f.sample 0) = some 255 ∧
    interpAlpha [((0 : ℚ), 0), (255, 1)] 0 = 0 ∧ (255 : ℚ) ≠ 0 := by
  refine ⟨rfl, ?_, by norm_num⟩
  unfold interpAlpha
  norm_num

/-- C8 amended: the web builder falls back to even spacing `i/(n-1)` for
every index whose location is missing (and uses `locations[i] * 100` when
present), never aborting; the Android builder instead treats any
stops/locations length mismatch as the no-gradient case and paints the
all-opaque white mask, also never aborting. -/
theorem locations_fallback_amended :
    (∀ (colors : List (Option ℕ)) (locations : List ℚ) (d : String) (i : ℕ)
      (hi : i < ((buildGradientString colors locations d).2).length),
      (locations.length ≤ i →
        (((buildGradientString colors locations d).2).get ⟨i, hi⟩).2 =
          ((i : ℚ) / ((colors.length : ℚ) - 1)) * 100) ∧
      (∀ hil : i < locations.length,
        (((buildGradientString colors locations d).2).get ⟨i, hi⟩).2 =
          locations.get ⟨i, hil⟩ * 100)) ∧
    (∀ (s : OptView) (cs : List ℕ) (ls : List ℚ),
      s.colors = some cs → s.locations = some ls → cs.length ≠ ls.length →
      0 < s.width → 0 < s.height →
      (s.updateBaseMaskBitmap).baseMaskBitmap = some whiteField) := by
  constructor
  · intro colors locations d i hi
    have hlen : ((buildGradientString colors locations d).2).length =
        colors.length := by
      simp [buildGradientString]
    have hget : (((buildGradientString colors locations d).2).get ⟨i, hi⟩) =
        (colorToRgba (colors.getD i none), locationAt locations colors.length i) := by
      simp [buildGradientString]
    constructor
    · intro hmiss
      rw [hget]
      unfold locationAt
      rw [List.getElem?_eq_none hmiss]
    · intro hil
      rw [hget]
      unfold locationAt
      rw [List.getElem?_eq_getElem hil]
      simp
  · intro s cs ls hc hl hne hw hh
    unfold OptView.updateBaseMaskBitmap
    rw [if_neg (by omega)]
    simp only [hc, hl]
    rw [if_neg (by intro hand; exact hne hand.1)]

/-- Witness for C8 amended: with two colors and a single location, the
second stop's position falls back to `1/(2-1) * 100 = 100`. -/
theorem locations_fallback_amended_witness :
    (((buildGradientString [some 0x00000000, some 0xFF000000] [0] "top").2).get
      ⟨1, by decide⟩).2 = ((1 : ℚ) / (((2 : ℕ) : ℚ) - 1)) * 100 :=
  ((locations_fallback_amended.1 [some 0x00000000, some 0xFF000000] [0] "top" 1
    (by decide)).1 (by decide))

end GradientMask
